import Mathlib

/-!
# logln: a dual-sink (console + file) logger

Shallow embedding of `Logln.go`.  The package keeps one process-wide handle
`logFile`; every emission reads the clock, writes to standard output unless
silenced, and writes to the handle unless it is nil.  The embedding threads an
explicit `World` through every function: the console contents, the bytes of
the log file on disk, the package variable `logFile`, and the behaviour of the
operating system (what the clock reads, whether a write, a close or an open
fails).
-/

namespace logln

/-! ## The environment -/

/-- A Go `error` value whose method `Error` returns: `closed` is
`os.ErrClosed`, `pathError op path err` is the `*fs.PathError` the package `os`
wraps the failure `err` of the operation `op` on the file `path` in, `other s`
is any other error, with `s` its description. -/
inductive GoError where
  | closed
  | other (description : String)
  | pathError (op path : String) (err : GoError)
  deriving DecidableEq, Repr

/-- The method `Error()` of a Go `error` that returns; for a `*fs.PathError`
it is `Op + " " + Path + ": " + Err.Error()`. -/
def GoError.Error : GoError → String
  | .closed => "file already closed"
  | .other s => s
  | .pathError op path err => op ++ " " ++ path ++ ": " ++ err.Error

/-- A value of the interface type `error` that is not nil, as a caller can pass
it: `returning e` has a method `Error` that returns, `panicking v` has one that
panics with the value `v`, as a nil pointer held in the interface does when
its method reads a field. -/
inductive ErrorValue where
  | returning (e : GoError)
  | panicking (value : String)
  deriving DecidableEq, Repr

/-- An error whose method `Error` returns is a value of the interface. -/
instance : Coe GoError ErrorValue := ⟨ErrorValue.returning⟩

/-- The call `err.Error()` on a parameter of type `error`, `none` being the nil
interface: the text the method returns, or the value it panics with. Calling
the method of the nil interface is a nil dereference. -/
def callError : Option ErrorValue → Except String String
  | some (.returning e) => .ok e.Error
  | some (.panicking v) => .error v
  | none => .error "runtime error: invalid memory address or nil pointer dereference"

/-- A `*os.File`: all the logger can observe of it is whether it was closed. -/
structure File where
  closed : Bool
  deriving DecidableEq, Repr

/-- Everything a call can read or change. -/
structure World where
  /-- what `time.Now().Format("2006/01/02 15:04:05")` returns -/
  now : String
  /-- what `time.Now().Format("2006_01_02-15_04_05")` returns -/
  nowFile : String
  /-- every byte written to standard output so far -/
  console : String
  /-- the package variable `fileName`, set once when the package is loaded -/
  fileName : String
  /-- the bytes of the file named `fileName` -/
  disk : String
  /-- the arguments of the `WriteString` calls made so far, oldest first -/
  writes : List String
  /-- the package variable `logFile`; `none` is nil -/
  logFile : Option File
  /-- the error a write to an open handle returns; `none` when writes succeed -/
  writeFault : Option GoError
  /-- the error the system answers the close of an open handle with; `none`
  when the close succeeds -/
  closeFault : Option GoError
  /-- the error `os.OpenFile` answers with; `none` when the open succeeds -/
  openFault : Option GoError
  deriving DecidableEq, Repr

/-- How a call that returns no value ends: it returns to its caller, the
process ends through `os.Exit`, or the goroutine unwinds through `panic`. -/
inductive Outcome where
  | returned
  | exited (code : Int)
  | panicked (value : String)
  deriving DecidableEq, Repr

/-- The call `fmt.Print(s)`: the operand, nothing added; its results are discarded
by every caller. -/
def fmtPrint (s : String) (w : World) : World :=
  { w with console := w.console ++ s }

/-- The call `fmt.Println(s)`: the operand followed by a newline. -/
def fmtPrintln (s : String) (w : World) : World :=
  { w with console := w.console ++ s ++ "\n" }

/-- The method `(*os.File).WriteString`: a closed handle answers the
`*fs.PathError` of `os.ErrClosed`, a faulty device answers its error, otherwise
the bytes are appended. Only the error result is kept, as in every caller. -/
def File.WriteString (f : File) (s : String) (w : World) : Option GoError × World :=
  let w1 := { w with writes := w.writes ++ [s] }
  if f.closed then (some (GoError.pathError "write" w.fileName GoError.closed), w1)
  else match w.writeFault with
    | some e => (some e, w1)
    | none => (none, { w1 with disk := w1.disk ++ s })

/-- The method `(*os.File).Close`.  The close of an open handle answers nil,
or the `*fs.PathError` of the error the system reports, and the handle is
closed either way; the close of a closed handle answers the `*fs.PathError`
of `os.ErrClosed`: `close <name>: file already closed`. The name of the handle
is the one it was opened under, `fileName`. -/
def File.Close (f : File) (w : World) : Option GoError × File :=
  if f.closed then (some (GoError.pathError "close" w.fileName GoError.closed), f)
  else match w.closeFault with
    | some e => (some (GoError.pathError "close" w.fileName e), { f with closed := true })
    | none => (none, { f with closed := true })

/-- The verb `%t` of `fmt.Sprintf`. -/
def fmtBool (b : Bool) : String :=
  if b then "true" else "false"

/-- The call `os.Exit(code)`: nothing after it runs. -/
def osExit (code : Int) (w : World) : Outcome × World :=
  (Outcome.exited code, w)

/-! ## The package -/

/-- Source: the package variables, as the load of the package leaves them:
`fileName` is `getDateStringFileFmt() + ".log"` at that moment and `logFile` is
nil. -/
def loadPackage (w : World) : World :=
  { w with fileName := w.nowFile ++ ".log", logFile := none }

/-- Source: `getDateStringLogFmt`. -/
def getDateStringLogFmt (w : World) : String :=
  w.now

/-- Source: `getDateStringFileFmt`. -/
def getDateStringFileFmt (w : World) : String :=
  w.nowFile

/-- Source: `Init`.  When the open fails the error is printed and the process
exits with status 1; otherwise `logFile` is the fresh handle. -/
def Init (w : World) : Outcome × World :=
  match w.openFault with
  | some err => osExit 1 (fmtPrintln ("Error opening log file: " ++ err.Error) w)
  | none => (Outcome.returned, { w with logFile := some { closed := false } })

/-- Source: `Close`.  The handle is closed; `logFile` keeps pointing at it. -/
def Close (w : World) : Option GoError × World :=
  match w.logFile with
  | some f => ((File.Close f w).1, { w with logFile := some (File.Close f w).2 })
  | none => (none, w)

/-- Source: `levelStr`, a `switch` over the integer level. -/
def levelStr (level : Int) : String :=
  if level = 0 then "INFO"
  else if level = 1 then "WARNING"
  else if level = 2 then "ERROR"
  else if level = 3 then "FATAL"
  else if level = 5 then "DEBUG"
  else ""

/-- Source: `ManualLogf`. -/
def ManualLogf (text : String) (level : Int) (isSilent : Bool) (w : World) :
    Option GoError × World :=
  let levelStr := levelStr level
  let date := getDateStringLogFmt w
  let msg := if levelStr ≠ "" then date ++ " " ++ levelStr ++ " " ++ text
             else date ++ " " ++ text
  let w1 := if !isSilent then fmtPrint msg w else w
  match w1.logFile with
  | some f => File.WriteString f msg w1
  | none => (none, w1)

/-- Source: `Printf`.  The level is accepted and not used. -/
def Printf (text : String) (_level : Int) (isSilent : Bool) (w : World) :
    Option GoError × World :=
  let w1 := if !isSilent then fmtPrint text w else w
  match w1.logFile with
  | some f => File.WriteString f text w1
  | none => (none, w1)

/-- Source: `Logln`. -/
def Logln (line : String) (level : Int) (isSilent : Bool) (w : World) :
    Option GoError × World :=
  let levelStr := levelStr level
  let date := getDateStringLogFmt w
  let msg := if levelStr ≠ "" then date ++ " " ++ levelStr ++ " " ++ line
             else date ++ " " ++ line
  let w1 := if !isSilent then fmtPrintln (msg ++ "\n") w else w
  match w1.logFile with
  | some f => File.WriteString f (msg ++ "\n") w1
  | none => (none, w1)

/-- Source: `printSuccess`; the result of `Logln` is discarded. -/
def printSuccess (msg : String) (successLevel : Int) (isSilent : Bool) (w : World) :
    Outcome × World :=
  (Outcome.returned, (Logln ("Success " ++ msg ++ ".") successLevel isSilent w).2)

/-- Source: `warningWithError`.  The argument `err.Error()` is evaluated
before `Logln` is called: when it panics nothing is written. -/
def warningWithError (msg : String) (err : Option ErrorValue) (w : World) : Outcome × World :=
  match callError err with
  | .ok detail => (Outcome.returned, (Logln (msg ++ ": " ++ detail) 1 false w).2)
  | .error value => (Outcome.panicked value, w)

/-- Source: `warning`. -/
def warning (msg : String) (err : Option ErrorValue) (w : World) : Outcome × World :=
  match callError err with
  | .ok detail => (Outcome.returned, (Logln (msg ++ ": " ++ detail) 1 false w).2)
  | .error value => (Outcome.panicked value, w)

/-- Source: `printError`. -/
def printError (msg : String) (err : Option ErrorValue) (w : World) : Outcome × World :=
  match callError err with
  | .ok detail =>
    (Outcome.returned, (Logln ("Error occurred " ++ msg ++ ": " ++ detail) 2 false w).2)
  | .error value => (Outcome.panicked value, w)

/-- Source: `fatalError`: the line is logged, then `os.Exit(1)`. -/
def fatalError (msg : String) (err : Option ErrorValue) (w : World) : Outcome × World :=
  match callError err with
  | .ok detail =>
    osExit 1 (Logln ("Fatal error encountered " ++ msg ++ ": " ++ detail) 3 false w).2
  | .error value => (Outcome.panicked value, w)

/-- Source: `panicError`: the line is logged; the body has no other statement. -/
def panicError (msg : String) (err : Option ErrorValue) (w : World) : Outcome × World :=
  match callError err with
  | .ok detail => (Outcome.returned, (Logln ("Panic " ++ msg ++ ": " ++ detail) 3 false w).2)
  | .error value => (Outcome.panicked value, w)

/-- Source: `errorIfNotFalse`, a `switch` with the single case `false`. -/
def errorIfNotFalse (b : Bool) (msg : String) (w : World) : Outcome × World :=
  match b with
  | false => (Outcome.returned,
      (Logln ("Error occurred " ++ msg ++ ": " ++ fmtBool b) 2 false w).2)
  | true => (Outcome.returned, w)

/-- Source: `warnIfNotFalse`. -/
def warnIfNotFalse (b : Bool) (msg : String) (w : World) : Outcome × World :=
  match b with
  | false => (Outcome.returned, (Logln (msg ++ ": " ++ fmtBool b) 1 false w).2)
  | true => (Outcome.returned, w)

/-- Source: `fatalIfNotFalse`: the line is logged; the case has no other statement. -/
def fatalIfNotFalse (b : Bool) (msg : String) (w : World) : Outcome × World :=
  match b with
  | false => (Outcome.returned,
      (Logln ("Fatal error occurred " ++ msg ++ ": " ++ fmtBool b) 3 false w).2)
  | true => (Outcome.returned, w)

/-- Source: `panicIfNotFalse`: the line is logged; the case has no other statement. -/
def panicIfNotFalse (b : Bool) (msg : String) (w : World) : Outcome × World :=
  match b with
  | false => (Outcome.returned, (Logln ("Panic " ++ msg ++ ": " ++ fmtBool b) 3 false w).2)
  | true => (Outcome.returned, w)

/-- Source: `errorIfNotOk`. -/
def errorIfNotOk (ok : Bool) (msg : String) (w : World) : Outcome × World :=
  errorIfNotFalse ok msg w

/-- Source: `warnIfNotOk`. -/
def warnIfNotOk (ok : Bool) (msg : String) (w : World) : Outcome × World :=
  warnIfNotFalse ok msg w

/-- Source: `fatalIfNotOk`. -/
def fatalIfNotOk (ok : Bool) (msg : String) (w : World) : Outcome × World :=
  fatalIfNotFalse ok msg w

/-- Source: `panicIfNotOk`. -/
def panicIfNotOk (ok : Bool) (msg : String) (w : World) : Outcome × World :=
  panicIfNotFalse ok msg w

/-- Source: `PrintWarningOrSuccessIfNotOk`. -/
def PrintWarningOrSuccessIfNotOk (ok : Bool) (msg : String) (successLevel : Int)
    (isSuccessSilent : Bool) (w : World) : Outcome × World :=
  if !ok then warnIfNotOk ok msg w else printSuccess msg successLevel isSuccessSilent w

/-- Source: `PrintErrorOrSuccessIfNotOk`. -/
def PrintErrorOrSuccessIfNotOk (ok : Bool) (msg : String) (successLevel : Int)
    (isSuccessSilent : Bool) (w : World) : Outcome × World :=
  if !ok then errorIfNotFalse ok msg w else printSuccess msg successLevel isSuccessSilent w

/-- Source: `PrintFatalOrSuccessIfNotOk`. -/
def PrintFatalOrSuccessIfNotOk (ok : Bool) (msg : String) (successLevel : Int)
    (isSuccessSilent : Bool) (w : World) : Outcome × World :=
  if !ok then fatalIfNotFalse ok msg w else printSuccess msg successLevel isSuccessSilent w

/-- Source: `PrintPanicOrSuccessIfNotOk`. -/
def PrintPanicOrSuccessIfNotOk (ok : Bool) (msg : String) (successLevel : Int)
    (isSuccessSilent : Bool) (w : World) : Outcome × World :=
  if !ok then panicIfNotFalse ok msg w else printSuccess msg successLevel isSuccessSilent w

/-- Source: `PrintWarningOrSuccess`; `err` is `none` for nil. -/
def PrintWarningOrSuccess (msg : String) (err : Option ErrorValue) (successLevel : Int)
    (isSuccessSilent : Bool) (w : World) : Outcome × World :=
  match err with
  | some _ => warningWithError msg err w
  | none => printSuccess msg successLevel isSuccessSilent w

/-- Source: `PrintErrorOrSuccess`. -/
def PrintErrorOrSuccess (msg : String) (err : Option ErrorValue) (successLevel : Int)
    (isSuccessSilent : Bool) (w : World) : Outcome × World :=
  match err with
  | some _ => printError msg err w
  | none => printSuccess msg successLevel isSuccessSilent w

/-- Source: `PrintPanicOrSuccess`. -/
def PrintPanicOrSuccess (msg : String) (err : Option ErrorValue) (successLevel : Int)
    (isSuccessSilent : Bool) (w : World) : Outcome × World :=
  match err with
  | some _ => panicError msg err w
  | none => printSuccess msg successLevel isSuccessSilent w

/-- Source: `PrintFatalOrSuccess`. -/
def PrintFatalOrSuccess (msg : String) (err : Option ErrorValue) (successLevel : Int)
    (isSuccessSilent : Bool) (w : World) : Outcome × World :=
  match err with
  | some _ => fatalError msg err w
  | none => printSuccess msg successLevel isSuccessSilent w

/-! ## Measurements used by the statements -/

/-- The number of newline characters a string ends in. -/
def trailingNewlines (s : String) : Nat :=
  (s.data.reverse.takeWhile (fun c => c == '\n')).length

/-- The log line as the specification words it:
`timestamp + [" " + severity-label] + " " + text`, the bracketed segment left
out when the label is empty. -/
def specLogLine (timestamp label text : String) : String :=
  if label = "" then timestamp ++ " " ++ text
  else timestamp ++ " " ++ label ++ " " ++ text

/-- The world after the console step of an emission: `out` is appended to
the console unless the call is silent. -/
def afterConsole (isSilent : Bool) (out : String) (w : World) : World :=
  if isSilent then w else { w with console := w.console ++ out }

/-- A world in which nothing was written yet, the sink is open and healthy
and the clock reads `2024/01/02 03:04:05`. -/
def openWorld : World :=
  { now := "2024/01/02 03:04:05", nowFile := "2024_01_02-03_04_05", console := "",
    fileName := "2024_01_02-03_04_05.log", disk := "", writes := [],
    logFile := some { closed := false }, writeFault := none, closeFault := none,
    openFault := none }

/-- The same world before `Init`: `logFile` is nil. -/
def freshWorld : World :=
  { openWorld with logFile := none }

/-- The value the runtime panics with when a method reads through a nil
pointer. -/
def nilDereference : String :=
  "runtime error: invalid memory address or nil pointer dereference"

/-- The open world on a device that fails every write: the disk is full. -/
def fullDiskWorld : World :=
  { openWorld with writeFault := some (GoError.other "no space left on device") }

/-! ## Theorems -/

/-! ### The shape of one emission -/

/-- The message `Logln` composes is the log line of the specification. -/
theorem Logln_msg (line : String) (level : Int) (w : World) :
    (if levelStr level ≠ "" then getDateStringLogFmt w ++ " " ++ levelStr level ++ " " ++ line
      else getDateStringLogFmt w ++ " " ++ line) = specLogLine w.now (levelStr level) line := by
  unfold specLogLine getDateStringLogFmt
  by_cases hl : levelStr level = "" <;> simp [hl]

/-- The call `Logln` when `logFile` is nil: the console step only. -/
theorem Logln_nil (line : String) (level : Int) (isSilent : Bool) (w : World)
    (hnil : w.logFile = none) :
    Logln line level isSilent w =
      (none, afterConsole isSilent (specLogLine w.now (levelStr level) line ++ "\n" ++ "\n") w) := by
  unfold Logln
  simp only [Logln_msg]
  cases isSilent <;> simp [afterConsole, fmtPrintln, hnil, String.append_assoc]

/-- The call `Logln` when `logFile` is a handle: the console step, then one
`WriteString` of the message and a newline. -/
theorem Logln_some (line : String) (level : Int) (isSilent : Bool) (w : World) (f : File)
    (hsome : w.logFile = some f) :
    Logln line level isSilent w =
      File.WriteString f (specLogLine w.now (levelStr level) line ++ "\n")
        (afterConsole isSilent (specLogLine w.now (levelStr level) line ++ "\n" ++ "\n") w) := by
  unfold Logln
  simp only [Logln_msg]
  cases isSilent <;> simp [afterConsole, fmtPrintln, hsome, String.append_assoc]

/-- The call `ManualLogf` when `logFile` is nil. -/
theorem ManualLogf_nil (text : String) (level : Int) (isSilent : Bool) (w : World)
    (hnil : w.logFile = none) :
    ManualLogf text level isSilent w =
      (none, afterConsole isSilent (specLogLine w.now (levelStr level) text) w) := by
  unfold ManualLogf
  simp only [Logln_msg]
  cases isSilent <;> simp [afterConsole, fmtPrint, hnil]

/-- The call `ManualLogf` when `logFile` is a handle. -/
theorem ManualLogf_some (text : String) (level : Int) (isSilent : Bool) (w : World) (f : File)
    (hsome : w.logFile = some f) :
    ManualLogf text level isSilent w =
      File.WriteString f (specLogLine w.now (levelStr level) text)
        (afterConsole isSilent (specLogLine w.now (levelStr level) text) w) := by
  unfold ManualLogf
  simp only [Logln_msg]
  cases isSilent <;> simp [afterConsole, fmtPrint, hsome]

/-- The call `Printf` when `logFile` is nil. -/
theorem Printf_nil (text : String) (level : Int) (isSilent : Bool) (w : World)
    (hnil : w.logFile = none) :
    Printf text level isSilent w = (none, afterConsole isSilent text w) := by
  unfold Printf
  cases isSilent <;> simp [afterConsole, fmtPrint, hnil]

/-- The call `Printf` when `logFile` is a handle. -/
theorem Printf_some (text : String) (level : Int) (isSilent : Bool) (w : World) (f : File)
    (hsome : w.logFile = some f) :
    Printf text level isSilent w =
      File.WriteString f text (afterConsole isSilent text w) := by
  unfold Printf
  cases isSilent <;> simp [afterConsole, fmtPrint, hsome]

/-- A write leaves the console as it was. -/
theorem WriteString_console (f : File) (s : String) (w : World) :
    (File.WriteString f s w).2.console = w.console := by
  unfold File.WriteString
  cases f.closed <;> cases w.writeFault <;> simp

/-- A write is recorded as one attempt, whatever its result. -/
theorem WriteString_writes (f : File) (s : String) (w : World) :
    (File.WriteString f s w).2.writes = w.writes ++ [s] := by
  unfold File.WriteString
  cases f.closed <;> cases w.writeFault <;> simp

/-- A write on an open handle answers with the fault of the device. -/
theorem WriteString_open_fst (f : File) (s : String) (w : World) (hc : f.closed = false) :
    (File.WriteString f s w).1 = w.writeFault := by
  unfold File.WriteString
  cases hw : w.writeFault <;> simp [hc]

/-- A successful write appends its bytes to the file. -/
theorem WriteString_ok_disk (f : File) (s : String) (w : World) (hc : f.closed = false)
    (hw : w.writeFault = none) :
    (File.WriteString f s w).2.disk = w.disk ++ s := by
  unfold File.WriteString
  simp [hc, hw]

/-- The console step changes the console only. -/
theorem afterConsole_frame (isSilent : Bool) (out : String) (w : World) :
    (afterConsole isSilent out w).disk = w.disk ∧
    (afterConsole isSilent out w).writes = w.writes ∧
    (afterConsole isSilent out w).logFile = w.logFile ∧
    (afterConsole isSilent out w).writeFault = w.writeFault ∧
    (afterConsole isSilent out w).now = w.now := by
  cases isSilent <;> simp [afterConsole]

/-- The console step, read on the console. -/
theorem afterConsole_console (isSilent : Bool) (out : String) (w : World) :
    (afterConsole isSilent out w).console = if isSilent then w.console else w.console ++ out := by
  cases isSilent <;> simp [afterConsole]

/-- A write after the console step is the write before it, with the console
of the console step. -/
theorem WriteString_afterConsole (f : File) (s : String) (isSilent : Bool) (out : String)
    (w : World) :
    File.WriteString f s (afterConsole isSilent out w) =
      ((File.WriteString f s w).1,
       { (File.WriteString f s w).2 with console := (afterConsole isSilent out w).console }) := by
  unfold File.WriteString
  cases isSilent <;> cases hc : f.closed <;> cases hw : w.writeFault <;>
    simp [afterConsole, hw]

/-- The console after `Logln`, in every state of the sink. -/
theorem Logln_console (line : String) (level : Int) (isSilent : Bool) (w : World) :
    (Logln line level isSilent w).2.console =
      if isSilent then w.console
      else w.console ++ (specLogLine w.now (levelStr level) line ++ "\n" ++ "\n") := by
  cases hlf : w.logFile with
  | none => rw [Logln_nil _ _ _ w hlf, afterConsole_console]
  | some f => rw [Logln_some _ _ _ w f hlf, WriteString_console, afterConsole_console]

/-- The write attempts of `Logln`: one when `logFile` is a handle, none when
it is nil. -/
theorem Logln_writes (line : String) (level : Int) (isSilent : Bool) (w : World) :
    (Logln line level isSilent w).2.writes =
      w.writes ++ (match w.logFile with
        | some _ => [specLogLine w.now (levelStr level) line ++ "\n"]
        | none => []) := by
  cases hlf : w.logFile with
  | none => rw [Logln_nil _ _ _ w hlf]; simp [(afterConsole_frame _ _ _).2.1]
  | some f =>
    rw [Logln_some _ _ _ w f hlf, WriteString_writes, (afterConsole_frame _ _ _).2.1]

/-- The console after `ManualLogf`, in every state of the sink. -/
theorem ManualLogf_console (text : String) (level : Int) (isSilent : Bool) (w : World) :
    (ManualLogf text level isSilent w).2.console =
      if isSilent then w.console
      else w.console ++ specLogLine w.now (levelStr level) text := by
  cases hlf : w.logFile with
  | none => rw [ManualLogf_nil _ _ _ w hlf, afterConsole_console]
  | some f => rw [ManualLogf_some _ _ _ w f hlf, WriteString_console, afterConsole_console]

/-- The write attempts of `ManualLogf`: one when `logFile` is a handle, none
when it is nil. -/
theorem ManualLogf_writes (text : String) (level : Int) (isSilent : Bool) (w : World) :
    (ManualLogf text level isSilent w).2.writes =
      w.writes ++ (match w.logFile with
        | some _ => [specLogLine w.now (levelStr level) text]
        | none => []) := by
  cases hlf : w.logFile with
  | none => rw [ManualLogf_nil _ _ _ w hlf]; simp [(afterConsole_frame _ _ _).2.1]
  | some f =>
    rw [ManualLogf_some _ _ _ w f hlf, WriteString_writes, (afterConsole_frame _ _ _).2.1]

/-- The console after `Printf`, in every state of the sink. -/
theorem Printf_console (text : String) (level : Int) (isSilent : Bool) (w : World) :
    (Printf text level isSilent w).2.console =
      if isSilent then w.console else w.console ++ text := by
  cases hlf : w.logFile with
  | none => rw [Printf_nil _ _ _ w hlf, afterConsole_console]
  | some f => rw [Printf_some _ _ _ w f hlf, WriteString_console, afterConsole_console]

/-- The write attempts of `Printf`: one when `logFile` is a handle, none when
it is nil. -/
theorem Printf_writes (text : String) (level : Int) (isSilent : Bool) (w : World) :
    (Printf text level isSilent w).2.writes =
      w.writes ++ (match w.logFile with
        | some _ => [text]
        | none => []) := by
  cases hlf : w.logFile with
  | none => rw [Printf_nil _ _ _ w hlf]; simp [(afterConsole_frame _ _ _).2.1]
  | some f =>
    rw [Printf_some _ _ _ w f hlf, WriteString_writes, (afterConsole_frame _ _ _).2.1]

/-- The file after `ManualLogf` into an open handle on a healthy device. -/
theorem ManualLogf_open_disk (text : String) (level : Int) (isSilent : Bool) (w : World)
    (f : File) (hsome : w.logFile = some f) (hopen : f.closed = false)
    (hok : w.writeFault = none) :
    (ManualLogf text level isSilent w).2.disk =
      w.disk ++ specLogLine w.now (levelStr level) text := by
  rw [ManualLogf_some text level isSilent w f hsome, WriteString_ok_disk _ _ _ hopen
    (by rw [(afterConsole_frame _ _ _).2.2.2.1]; exact hok), (afterConsole_frame _ _ _).1]

/-- The file after `Printf` into an open handle on a healthy device. -/
theorem Printf_open_disk (text : String) (level : Int) (isSilent : Bool) (w : World)
    (f : File) (hsome : w.logFile = some f) (hopen : f.closed = false)
    (hok : w.writeFault = none) :
    (Printf text level isSilent w).2.disk = w.disk ++ text := by
  rw [Printf_some text level isSilent w f hsome, WriteString_ok_disk _ _ _ hopen
    (by rw [(afterConsole_frame _ _ _).2.2.2.1]; exact hok), (afterConsole_frame _ _ _).1]

/-- The file after `Logln` into an open handle on a healthy device. -/
theorem Logln_open_disk (line : String) (level : Int) (isSilent : Bool) (w : World) (f : File)
    (hsome : w.logFile = some f) (hopen : f.closed = false) (hok : w.writeFault = none) :
    (Logln line level isSilent w).2.disk =
      w.disk ++ (specLogLine w.now (levelStr level) line ++ "\n") := by
  rw [Logln_some line level isSilent w f hsome, WriteString_ok_disk _ _ _ hopen
    (by rw [(afterConsole_frame _ _ _).2.2.2.1]; exact hok), (afterConsole_frame _ _ _).1]

/-! ### Newlines at the end of a string -/

/-- Scanning stops at the first character that fails the test, so what follows
it does not count. -/
theorem takeWhile_append_stop {α : Type} (p : α → Bool) (a : α) (ha : p a = false)
    (l r : List α) : (l ++ a :: r).takeWhile p = l.takeWhile p := by
  induction l with
  | nil => simp [List.takeWhile, ha]
  | cons x xs ih =>
    cases hx : p x <;> simp [List.takeWhile, hx, ih]

/-- One more newline at the end is one more trailing newline. -/
theorem trailingNewlines_newline (s : String) :
    trailingNewlines (s ++ "\n") = trailingNewlines s + 1 := by
  unfold trailingNewlines
  simp [String.data_append, List.takeWhile]

/-- What stands before a space does not count. -/
theorem trailingNewlines_space (a t : String) :
    trailingNewlines (a ++ " " ++ t) = trailingNewlines t := by
  unfold trailingNewlines
  have hsp : (fun c : Char => c == '\n') ' ' = false := by decide
  simp only [String.data_append, List.reverse_append]
  have hdata : (" " : String).data.reverse = [' '] := by decide
  rw [hdata, List.singleton_append,
    takeWhile_append_stop (fun c : Char => c == '\n') ' ' hsp]

/-- A log line ends in as many newlines as its text. -/
theorem trailingNewlines_specLogLine (ts label t : String) :
    trailingNewlines (specLogLine ts label t) = trailingNewlines t := by
  unfold specLogLine
  split
  · exact trailingNewlines_space ts t
  · exact trailingNewlines_space (ts ++ " " ++ label) t

/-- C1: `levelStr` maps 0, 1, 2, 3, 5 to INFO, WARNING, ERROR, FATAL, DEBUG and
every other integer, 4 and the negative ones among them, to the empty string;
being a total function it answers for every integer. -/
theorem levelStr_table :
    levelStr 0 = "INFO" ∧ levelStr 1 = "WARNING" ∧ levelStr 2 = "ERROR" ∧
    levelStr 3 = "FATAL" ∧ levelStr 5 = "DEBUG" ∧ levelStr 4 = "" ∧
    (∀ level : Int, level < 0 → levelStr level = "") ∧
    (∀ level : Int, level ≠ 0 → level ≠ 1 → level ≠ 2 → level ≠ 3 → level ≠ 5 →
      levelStr level = "") := by
  refine ⟨by decide, by decide, by decide, by decide, by decide, by decide, ?_, ?_⟩
  · intro level hneg
    have h0 : level ≠ 0 := by omega
    have h1 : level ≠ 1 := by omega
    have h2 : level ≠ 2 := by omega
    have h3 : level ≠ 3 := by omega
    have h5 : level ≠ 5 := by omega
    simp [levelStr, h0, h1, h2, h3, h5]
  · intro level h0 h1 h2 h3 h5
    simp [levelStr, h0, h1, h2, h3, h5]

/-- Witness of C1 at the levels -1 and 7. -/
theorem levelStr_table_witness :
    ((-1 : Int) < 0 ∧ levelStr (-1) = "") ∧
    ((7 : Int) ≠ 0 ∧ (7 : Int) ≠ 1 ∧ (7 : Int) ≠ 2 ∧ (7 : Int) ≠ 3 ∧ (7 : Int) ≠ 5 ∧
      levelStr 7 = "") :=
  ⟨⟨by decide, levelStr_table.2.2.2.2.2.2.1 (-1) (by decide)⟩,
   by decide, by decide, by decide, by decide, by decide,
   levelStr_table.2.2.2.2.2.2.2 7 (by decide) (by decide) (by decide) (by decide) (by decide)⟩

/-- C2: with `ts` the reading of the clock, the message `Logln` and
`ManualLogf` compose is `ts + " " + levelStr(level) + " " + text` when the label
is not empty and `ts + " " + text` when it is, so that one space and no label
segment stands between the timestamp and the text. The message is read where
the calls put it: on the console of a call that is not silent (`Logln` adds
its two newlines), and in the bytes handed to the file when `logFile` is a
handle (`Logln` adds its one newline). -/
theorem composed_message (text : String) (level : Int) (ts : String) (w : World)
    (hts : w.now = ts) :
    (levelStr level ≠ "" →
      (ManualLogf text level false w).2.console =
          w.console ++ (ts ++ " " ++ levelStr level ++ " " ++ text) ∧
      (Logln text level false w).2.console =
          w.console ++ ((ts ++ " " ++ levelStr level ++ " " ++ text) ++ "\n" ++ "\n") ∧
      (∀ (isSilent : Bool) (f : File), w.logFile = some f →
        (ManualLogf text level isSilent w).2.writes =
            w.writes ++ [ts ++ " " ++ levelStr level ++ " " ++ text] ∧
        (Logln text level isSilent w).2.writes =
            w.writes ++ [(ts ++ " " ++ levelStr level ++ " " ++ text) ++ "\n"])) ∧
    (levelStr level = "" →
      (ManualLogf text level false w).2.console = w.console ++ (ts ++ " " ++ text) ∧
      (Logln text level false w).2.console = w.console ++ ((ts ++ " " ++ text) ++ "\n" ++ "\n") ∧
      (∀ (isSilent : Bool) (f : File), w.logFile = some f →
        (ManualLogf text level isSilent w).2.writes = w.writes ++ [ts ++ " " ++ text] ∧
        (Logln text level isSilent w).2.writes = w.writes ++ [(ts ++ " " ++ text) ++ "\n"])) := by
  subst hts
  simp only [ManualLogf_console, Logln_console, ManualLogf_writes, Logln_writes]
  constructor
  · intro hl
    refine ⟨by simp [specLogLine, hl], by simp [specLogLine, hl], ?_⟩
    intro isSilent f hf
    simp [specLogLine, hl, hf]
  · intro hl
    refine ⟨by simp [specLogLine, hl], by simp [specLogLine, hl], ?_⟩
    intro isSilent f hf
    simp [specLogLine, hl, hf]

/-- Witness of C2: level 0 carries the label INFO, level 4 carries none. -/
theorem composed_message_witness :
    (levelStr 0 ≠ "" ∧
      (ManualLogf "up" 0 false openWorld).2.console = "2024/01/02 03:04:05 INFO up" ∧
      (Logln "up" 0 true openWorld).2.writes = ["2024/01/02 03:04:05 INFO up\n"]) ∧
    (levelStr 4 = "" ∧
      (ManualLogf "up" 4 false openWorld).2.console = "2024/01/02 03:04:05 up" ∧
      (Logln "up" 4 true openWorld).2.writes = ["2024/01/02 03:04:05 up\n"]) :=
  ⟨⟨by decide,
    ((composed_message "up" 0 "2024/01/02 03:04:05" openWorld rfl).1 (by decide)).1,
    (((composed_message "up" 0 "2024/01/02 03:04:05" openWorld rfl).1 (by decide)).2.2
      true ⟨false⟩ rfl).2⟩,
   ⟨by decide,
    ((composed_message "up" 4 "2024/01/02 03:04:05" openWorld rfl).2 (by decide)).1,
    (((composed_message "up" 4 "2024/01/02 03:04:05" openWorld rfl).2 (by decide)).2.2
      true ⟨false⟩ rfl).2⟩⟩

/-- C3: with the sink open and the call not silent, `Logln` appends the
composed line and two newlines to the console and the composed line and one
newline to the file; the console output is the file output and one more
newline. -/
theorem Logln_open_outputs (line : String) (level : Int) (w : World) (f : File)
    (hsome : w.logFile = some f) (hopen : f.closed = false) (hok : w.writeFault = none) :
    (Logln line level false w).2.console =
        w.console ++ (specLogLine w.now (levelStr level) line ++ "\n" ++ "\n") ∧
    (Logln line level false w).2.disk =
        w.disk ++ (specLogLine w.now (levelStr level) line ++ "\n") ∧
    (Logln line level false w).2.writes =
        w.writes ++ [specLogLine w.now (levelStr level) line ++ "\n"] ∧
    (∃ fileOut : String,
      (Logln line level false w).2.disk = w.disk ++ fileOut ∧
      (Logln line level false w).2.console = w.console ++ (fileOut ++ "\n")) := by
  have hcon : (Logln line level false w).2.console =
      w.console ++ (specLogLine w.now (levelStr level) line ++ "\n" ++ "\n") := by
    rw [Logln_console]
    rfl
  have hdisk := Logln_open_disk line level false w f hsome hopen hok
  refine ⟨hcon, hdisk, ?_, ⟨specLogLine w.now (levelStr level) line ++ "\n", hdisk, hcon⟩⟩
  rw [Logln_writes, hsome]

/-- Witness of C3: the line `build ok` at level 0. -/
theorem Logln_open_outputs_witness :
    (Logln "build ok" 0 false openWorld).2.console =
        "2024/01/02 03:04:05 INFO build ok\n\n" ∧
    (Logln "build ok" 0 false openWorld).2.disk = "2024/01/02 03:04:05 INFO build ok\n" :=
  ⟨(Logln_open_outputs "build ok" 0 openWorld ⟨false⟩ rfl rfl rfl).1,
   (Logln_open_outputs "build ok" 0 openWorld ⟨false⟩ rfl rfl rfl).2.1⟩

/-- C4, as stated, fails: the text `x` followed by a newline, logged at level 0
(label INFO) into an open sink with nothing written before, leaves a console
that ends in three newlines and a file that ends in two. -/
theorem Logln_text_ending_in_newline :
    levelStr 0 ≠ "" ∧
    openWorld.console = "" ∧ openWorld.disk = "" ∧
    (Logln "x\n" 0 false openWorld).2.console = "2024/01/02 03:04:05 INFO x\n\n\n" ∧
    (Logln "x\n" 0 false openWorld).2.disk = "2024/01/02 03:04:05 INFO x\n\n" ∧
    trailingNewlines (Logln "x\n" 0 false openWorld).2.console = 3 ∧
    trailingNewlines (Logln "x\n" 0 false openWorld).2.disk = 2 ∧
    ¬ (trailingNewlines (Logln "x\n" 0 false openWorld).2.console = 2 ∧
       trailingNewlines (Logln "x\n" 0 false openWorld).2.disk = 1) := by
  refine ⟨by decide, rfl, rfl, rfl, rfl, by decide, by decide, by decide⟩

/-- C4, amended: for every text and every level whose label is not empty,
`Logln` into an open sink, not silent, writes console output that ends in two
newlines more than the text ends in and file output that ends in one more; so
in exactly two and exactly one when the text does not end in a newline. -/
theorem Logln_trailing_newlines (line : String) (level : Int) (w : World) (f : File)
    (hlabel : levelStr level ≠ "") (hsome : w.logFile = some f) (hopen : f.closed = false)
    (hok : w.writeFault = none) :
    ∃ consoleOut fileOut : String,
      (Logln line level false w).2.console = w.console ++ consoleOut ∧
      (Logln line level false w).2.disk = w.disk ++ fileOut ∧
      consoleOut = w.now ++ " " ++ levelStr level ++ " " ++ line ++ "\n" ++ "\n" ∧
      fileOut = w.now ++ " " ++ levelStr level ++ " " ++ line ++ "\n" ∧
      trailingNewlines consoleOut = trailingNewlines line + 2 ∧
      trailingNewlines fileOut = trailingNewlines line + 1 ∧
      (trailingNewlines line = 0 →
        trailingNewlines consoleOut = 2 ∧ trailingNewlines fileOut = 1) := by
  have hline : specLogLine w.now (levelStr level) line =
      w.now ++ " " ++ levelStr level ++ " " ++ line := by
    simp [specLogLine, hlabel]
  have hc : trailingNewlines (w.now ++ " " ++ levelStr level ++ " " ++ line ++ "\n" ++ "\n") =
      trailingNewlines line + 2 := by
    rw [trailingNewlines_newline, trailingNewlines_newline, trailingNewlines_space]
  have hf : trailingNewlines (w.now ++ " " ++ levelStr level ++ " " ++ line ++ "\n") =
      trailingNewlines line + 1 := by
    rw [trailingNewlines_newline, trailingNewlines_space]
  refine ⟨_, _, ?_, ?_, rfl, rfl, hc, hf, ?_⟩
  · rw [Logln_console, hline]
    rfl
  · rw [Logln_open_disk line level false w f hsome hopen hok, hline]
  · intro h0
    rw [hc, hf, h0]
    exact ⟨rfl, rfl⟩

/-- Witness of C4, amended: the text `x` at level 0. -/
theorem Logln_trailing_newlines_witness :
    levelStr 0 ≠ "" ∧ trailingNewlines "x" = 0 ∧
    ∃ consoleOut fileOut : String,
      (Logln "x" 0 false openWorld).2.console = openWorld.console ++ consoleOut ∧
      (Logln "x" 0 false openWorld).2.disk = openWorld.disk ++ fileOut ∧
      trailingNewlines consoleOut = 2 ∧ trailingNewlines fileOut = 1 := by
  refine ⟨by decide, by decide, ?_⟩
  obtain ⟨c, d, h1, h2, _, _, _, _, h7⟩ :=
    Logln_trailing_newlines "x" 0 openWorld ⟨false⟩ (by decide) rfl rfl rfl
  exact ⟨c, d, h1, h2, (h7 (by decide)).1, (h7 (by decide)).2⟩

/-- C5: a silent call of `Logln`, `ManualLogf` or `Printf` leaves the console
as it was, and hands the file the same bytes, leaves it with the same contents
and returns the same error as the call that is not silent, in every state of
the sink and at the same reading of the clock. -/
theorem silent_console_only (text : String) (level : Int) (w : World) :
    ((Logln text level true w).2.console = w.console ∧
      (Logln text level true w).2.disk = (Logln text level false w).2.disk ∧
      (Logln text level true w).2.writes = (Logln text level false w).2.writes ∧
      (Logln text level true w).1 = (Logln text level false w).1) ∧
    ((ManualLogf text level true w).2.console = w.console ∧
      (ManualLogf text level true w).2.disk = (ManualLogf text level false w).2.disk ∧
      (ManualLogf text level true w).2.writes = (ManualLogf text level false w).2.writes ∧
      (ManualLogf text level true w).1 = (ManualLogf text level false w).1) ∧
    ((Printf text level true w).2.console = w.console ∧
      (Printf text level true w).2.disk = (Printf text level false w).2.disk ∧
      (Printf text level true w).2.writes = (Printf text level false w).2.writes ∧
      (Printf text level true w).1 = (Printf text level false w).1) := by
  cases hlf : w.logFile with
  | none =>
    simp only [Logln_nil _ _ _ w hlf, ManualLogf_nil _ _ _ w hlf, Printf_nil _ _ _ w hlf]
    simp [afterConsole]
  | some f =>
    simp only [Logln_some _ _ _ w f hlf, ManualLogf_some _ _ _ w f hlf,
      Printf_some _ _ _ w f hlf, WriteString_afterConsole]
    simp [afterConsole]

/-- C6: while `logFile` is nil, `Logln`, `ManualLogf` and `Printf` attempt no
file write, leave the file as it was and return no error, for every text,
level and silence flag; the console still receives the output of a call that
is not silent, and nothing from a silent one. -/
theorem nil_sink_console_only (text : String) (level : Int) (isSilent : Bool) (w : World)
    (hnil : w.logFile = none) :
    ((Logln text level isSilent w).1 = none ∧
      (Logln text level isSilent w).2.writes = w.writes ∧
      (Logln text level isSilent w).2.disk = w.disk ∧
      (Logln text level isSilent w).2.console =
        if isSilent then w.console
        else w.console ++ (specLogLine w.now (levelStr level) text ++ "\n" ++ "\n")) ∧
    ((ManualLogf text level isSilent w).1 = none ∧
      (ManualLogf text level isSilent w).2.writes = w.writes ∧
      (ManualLogf text level isSilent w).2.disk = w.disk ∧
      (ManualLogf text level isSilent w).2.console =
        if isSilent then w.console
        else w.console ++ specLogLine w.now (levelStr level) text) ∧
    ((Printf text level isSilent w).1 = none ∧
      (Printf text level isSilent w).2.writes = w.writes ∧
      (Printf text level isSilent w).2.disk = w.disk ∧
      (Printf text level isSilent w).2.console =
        if isSilent then w.console else w.console ++ text) := by
  simp only [Logln_nil _ _ _ w hnil, ManualLogf_nil _ _ _ w hnil, Printf_nil _ _ _ w hnil]
  cases isSilent <;> simp [afterConsole]

/-- Witness of C6: a line logged before `Init`. -/
theorem nil_sink_console_only_witness :
    freshWorld.logFile = none ∧
    (Logln "build ok" 0 false freshWorld).1 = none ∧
    (Logln "build ok" 0 false freshWorld).2.writes = [] ∧
    (Logln "build ok" 0 false freshWorld).2.disk = "" ∧
    (Logln "build ok" 0 false freshWorld).2.console =
      "2024/01/02 03:04:05 INFO build ok\n\n" :=
  ⟨rfl, (nil_sink_console_only "build ok" 0 false freshWorld rfl).1.1,
    (nil_sink_console_only "build ok" 0 false freshWorld rfl).1.2.1,
    (nil_sink_console_only "build ok" 0 false freshWorld rfl).1.2.2.1,
    (nil_sink_console_only "build ok" 0 false freshWorld rfl).1.2.2.2⟩

/-- C7: with the sink open, `Logln`, `ManualLogf` and `Printf` make one write
attempt and return its result: the error `e` when the device fails the write
with `e`, no error when the write succeeds. A failed write is not retried and
nothing is logged about it: the trace of attempts grows by the one message and
the console holds the output of the call alone, which a call that is not
silent has written whether the write failed or not. -/
theorem write_result_returned (text : String) (level : Int) (isSilent : Bool) (w : World)
    (f : File) (hsome : w.logFile = some f) (hopen : f.closed = false) :
    ((∀ e : GoError, w.writeFault = some e → (Logln text level isSilent w).1 = some e) ∧
      (w.writeFault = none → (Logln text level isSilent w).1 = none) ∧
      (Logln text level isSilent w).2.writes =
        w.writes ++ [specLogLine w.now (levelStr level) text ++ "\n"] ∧
      (Logln text level isSilent w).2.console =
        if isSilent then w.console
        else w.console ++ (specLogLine w.now (levelStr level) text ++ "\n" ++ "\n")) ∧
    ((∀ e : GoError, w.writeFault = some e → (ManualLogf text level isSilent w).1 = some e) ∧
      (w.writeFault = none → (ManualLogf text level isSilent w).1 = none) ∧
      (ManualLogf text level isSilent w).2.writes =
        w.writes ++ [specLogLine w.now (levelStr level) text] ∧
      (ManualLogf text level isSilent w).2.console =
        if isSilent then w.console
        else w.console ++ specLogLine w.now (levelStr level) text) ∧
    ((∀ e : GoError, w.writeFault = some e → (Printf text level isSilent w).1 = some e) ∧
      (w.writeFault = none → (Printf text level isSilent w).1 = none) ∧
      (Printf text level isSilent w).2.writes = w.writes ++ [text] ∧
      (Printf text level isSilent w).2.console =
        if isSilent then w.console else w.console ++ text) := by
  simp only [Logln_some _ _ _ w f hsome, ManualLogf_some _ _ _ w f hsome,
    Printf_some _ _ _ w f hsome, WriteString_afterConsole, WriteString_writes,
    WriteString_open_fst _ _ _ hopen, afterConsole_console]
  refine ⟨⟨fun e he => he, fun he => he, trivial, trivial⟩,
    ⟨fun e he => he, fun he => he, trivial, trivial⟩,
    ⟨fun e he => he, fun he => he, trivial, trivial⟩⟩

/-- Witness of C7: the disk is full when `build ok` is logged. -/
theorem write_result_returned_witness :
    fullDiskWorld.logFile = some ⟨false⟩ ∧
    fullDiskWorld.writeFault = some (GoError.other "no space left on device") ∧
    (Logln "build ok" 0 false fullDiskWorld).1 =
      some (GoError.other "no space left on device") ∧
    (Logln "build ok" 0 false fullDiskWorld).2.writes =
      ["2024/01/02 03:04:05 INFO build ok\n"] ∧
    (Logln "build ok" 0 false fullDiskWorld).2.console =
      "2024/01/02 03:04:05 INFO build ok\n\n" ∧
    (Logln "build ok" 0 false openWorld).1 = none :=
  ⟨rfl, rfl,
   (write_result_returned "build ok" 0 false fullDiskWorld ⟨false⟩ rfl rfl).1.1 _ rfl,
   (write_result_returned "build ok" 0 false fullDiskWorld ⟨false⟩ rfl rfl).1.2.2.1,
   (write_result_returned "build ok" 0 false fullDiskWorld ⟨false⟩ rfl rfl).1.2.2.2,
   (write_result_returned "build ok" 0 false openWorld ⟨false⟩ rfl rfl).1.2.1 rfl⟩

/-- C8: given a passing signal (`ok` true, or `err` nil), each of the eight
`...OrSuccess` reporters returns after the one emission
`Logln("Success " + msg + ".", successLevel, isSuccessSilent)` and nothing
else, so no failure line; `PrintErrorOrSuccess("deploy", nil, 0, false)` writes
the text `Success deploy.` under the label INFO. -/
theorem reporters_success (msg : String) (successLevel : Int) (isSuccessSilent : Bool)
    (w : World) :
    PrintWarningOrSuccessIfNotOk true msg successLevel isSuccessSilent w =
      (Outcome.returned, (Logln ("Success " ++ msg ++ ".") successLevel isSuccessSilent w).2) ∧
    PrintErrorOrSuccessIfNotOk true msg successLevel isSuccessSilent w =
      (Outcome.returned, (Logln ("Success " ++ msg ++ ".") successLevel isSuccessSilent w).2) ∧
    PrintFatalOrSuccessIfNotOk true msg successLevel isSuccessSilent w =
      (Outcome.returned, (Logln ("Success " ++ msg ++ ".") successLevel isSuccessSilent w).2) ∧
    PrintPanicOrSuccessIfNotOk true msg successLevel isSuccessSilent w =
      (Outcome.returned, (Logln ("Success " ++ msg ++ ".") successLevel isSuccessSilent w).2) ∧
    PrintWarningOrSuccess msg none successLevel isSuccessSilent w =
      (Outcome.returned, (Logln ("Success " ++ msg ++ ".") successLevel isSuccessSilent w).2) ∧
    PrintErrorOrSuccess msg none successLevel isSuccessSilent w =
      (Outcome.returned, (Logln ("Success " ++ msg ++ ".") successLevel isSuccessSilent w).2) ∧
    PrintPanicOrSuccess msg none successLevel isSuccessSilent w =
      (Outcome.returned, (Logln ("Success " ++ msg ++ ".") successLevel isSuccessSilent w).2) ∧
    PrintFatalOrSuccess msg none successLevel isSuccessSilent w =
      (Outcome.returned, (Logln ("Success " ++ msg ++ ".") successLevel isSuccessSilent w).2) ∧
    (PrintErrorOrSuccess "deploy" none 0 false w).2.console =
      w.console ++ (w.now ++ " " ++ "INFO" ++ " " ++ "Success deploy." ++ "\n" ++ "\n") ∧
    (PrintErrorOrSuccess "deploy" none 0 false w).2.writes =
      w.writes ++ (match w.logFile with
        | some _ => [w.now ++ " " ++ "INFO" ++ " " ++ "Success deploy." ++ "\n"]
        | none => []) := by
  refine ⟨rfl, rfl, rfl, rfl, rfl, rfl, rfl, rfl, ?_, ?_⟩
  · show (Logln ("Success " ++ "deploy" ++ ".") 0 false w).2.console = _
    rw [Logln_console]
    rfl
  · show (Logln ("Success " ++ "deploy" ++ ".") 0 false w).2.writes = _
    rw [Logln_writes]
    rfl

/-- C9: given a failing signal, `PrintErrorOrSuccess` (`err` not nil),
`PrintErrorOrSuccessIfNotOk` and `errorIfNotOk` (`ok` false) return after the
one emission of `"Error occurred " + msg + ": " + detail` at level 2, label
ERROR, written to the console whatever the silence flag of the caller;
`detail` is `err.Error()` for the error value and `false` for the flag. No
`Success` line is written: the console grows by this line alone and the file
is handed at most this one message. -/
theorem reporters_error (msg : String) (err : GoError) (successLevel : Int)
    (isSuccessSilent : Bool) (w : World) :
    levelStr 2 = "ERROR" ∧
    PrintErrorOrSuccess msg (some err) successLevel isSuccessSilent w =
      (Outcome.returned,
        (Logln ("Error occurred " ++ msg ++ ": " ++ err.Error) 2 false w).2) ∧
    PrintErrorOrSuccessIfNotOk false msg successLevel isSuccessSilent w =
      (Outcome.returned, (Logln ("Error occurred " ++ msg ++ ": " ++ "false") 2 false w).2) ∧
    errorIfNotOk false msg w =
      (Outcome.returned, (Logln ("Error occurred " ++ msg ++ ": " ++ "false") 2 false w).2) ∧
    (∀ detail : String,
      (Logln ("Error occurred " ++ msg ++ ": " ++ detail) 2 false w).2.console =
        w.console ++
          (w.now ++ " " ++ "ERROR" ++ " " ++ ("Error occurred " ++ msg ++ ": " ++ detail)
            ++ "\n" ++ "\n") ∧
      (Logln ("Error occurred " ++ msg ++ ": " ++ detail) 2 false w).2.writes =
        w.writes ++ (match w.logFile with
          | some _ =>
            [w.now ++ " " ++ "ERROR" ++ " " ++ ("Error occurred " ++ msg ++ ": " ++ detail)
              ++ "\n"]
          | none => [])) := by
  refine ⟨by decide, rfl, rfl, rfl, ?_⟩
  intro detail
  rw [Logln_console, Logln_writes]
  exact ⟨rfl, rfl⟩

/-- What holds of C10: `PrintFatalOrSuccess` with an error ends the process
with status 1, after `Logln` has handed the fatal line to the sink. -/
theorem fatalError_exits_after_write (msg : String) (err : GoError) (successLevel : Int)
    (isSuccessSilent : Bool) (w : World) :
    PrintFatalOrSuccess msg (some err) successLevel isSuccessSilent w =
      (Outcome.exited 1,
        (Logln ("Fatal error encountered " ++ msg ++ ": " ++ err.Error) 3 false w).2) :=
  rfl

/-- C10 at `PrintFatalOrSuccessIfNotOk(false, "db", 0, false)` and
`fatalIfNotOk(false, "db")`: the fatal line is written and the call returns to
its caller; the process does not exit. The error-value variant, at the same
message, exits with status 1. -/
theorem fatal_flag_returns :
    (PrintFatalOrSuccessIfNotOk false "db" 0 false openWorld).1 = Outcome.returned ∧
    (PrintFatalOrSuccessIfNotOk false "db" 0 false openWorld).1 ≠ Outcome.exited 1 ∧
    (fatalIfNotOk false "db" openWorld).1 = Outcome.returned ∧
    (PrintFatalOrSuccessIfNotOk false "db" 0 false openWorld).2.disk =
      "2024/01/02 03:04:05 FATAL Fatal error occurred db: false\n" ∧
    (PrintFatalOrSuccess "db" (some (GoError.other "refused")) 0 false openWorld).1 =
      Outcome.exited 1 ∧
    (PrintFatalOrSuccess "db" (some (GoError.other "refused")) 0 false openWorld).2.disk =
      "2024/01/02 03:04:05 FATAL Fatal error encountered db: refused\n" := by
  refine ⟨rfl, by decide, rfl, rfl, rfl, rfl⟩

/-- What holds of C11: `PrintFatalOrSuccess` with an error logs
`"Fatal error encountered " + msg + ": " + err.Error()` at level 3, label
FATAL. -/
theorem fatalError_text (msg : String) (err : GoError) (successLevel : Int)
    (isSuccessSilent : Bool) (w : World) :
    levelStr 3 = "FATAL" ∧
    (PrintFatalOrSuccess msg (some err) successLevel isSuccessSilent w).2.console =
      w.console ++
        (w.now ++ " " ++ "FATAL" ++ " " ++ ("Fatal error encountered " ++ msg ++ ": " ++ err.Error)
          ++ "\n" ++ "\n") := by
  refine ⟨by decide, ?_⟩
  show (Logln ("Fatal error encountered " ++ msg ++ ": " ++ err.Error) 3 false w).2.console = _
  rw [Logln_console]
  rfl

/-- C11 at `PrintFatalOrSuccessIfNotOk(false, "db", 0, false)` and
`fatalIfNotOk(false, "db")`: the line written under the label FATAL reads
`Fatal error occurred db: false`, not `Fatal error encountered db: false`; the
error-value variant, at the same message, writes `Fatal error encountered`. -/
theorem fatal_flag_text :
    (PrintFatalOrSuccessIfNotOk false "db" 0 false openWorld).2.console =
      "2024/01/02 03:04:05 FATAL Fatal error occurred db: false\n\n" ∧
    (PrintFatalOrSuccessIfNotOk false "db" 0 false openWorld).2.console ≠
      "2024/01/02 03:04:05 FATAL Fatal error encountered db: false\n\n" ∧
    (fatalIfNotOk false "db" openWorld).2.console =
      "2024/01/02 03:04:05 FATAL Fatal error occurred db: false\n\n" ∧
    (fatalIfNotOk false "db" openWorld).2.disk =
      "2024/01/02 03:04:05 FATAL Fatal error occurred db: false\n" ∧
    (PrintFatalOrSuccess "db" (some (GoError.other "refused")) 0 false openWorld).2.console =
      "2024/01/02 03:04:05 FATAL Fatal error encountered db: refused\n\n" := by
  refine ⟨rfl, by decide, rfl, rfl, rfl⟩

/-- What holds of C12: given a failing signal the three panic reporters log
`"Panic " + msg + ": " + detail` at level 3, label FATAL. -/
theorem panic_reporters_text (msg : String) (err : GoError) (successLevel : Int)
    (isSuccessSilent : Bool) (w : World) :
    (PrintPanicOrSuccess msg (some err) successLevel isSuccessSilent w).2 =
      (Logln ("Panic " ++ msg ++ ": " ++ err.Error) 3 false w).2 ∧
    (PrintPanicOrSuccessIfNotOk false msg successLevel isSuccessSilent w).2 =
      (Logln ("Panic " ++ msg ++ ": " ++ "false") 3 false w).2 ∧
    (panicIfNotOk false msg w).2 = (Logln ("Panic " ++ msg ++ ": " ++ "false") 3 false w).2 :=
  ⟨rfl, rfl, rfl⟩

/-- C12 at `PrintPanicOrSuccess("db", err, 0, false)` with `err` the error
`refused`, `PrintPanicOrSuccessIfNotOk(false, "db", 0, false)` and
`panicIfNotOk(false, "db")`: the line `Panic db: ...` is written under the label
FATAL and the call returns to its caller; nothing panics. -/
theorem panic_reporters_return :
    (PrintPanicOrSuccess "db" (some (GoError.other "refused")) 0 false openWorld).2.console =
      "2024/01/02 03:04:05 FATAL Panic db: refused\n\n" ∧
    (PrintPanicOrSuccess "db" (some (GoError.other "refused")) 0 false openWorld).1 =
      Outcome.returned ∧
    (∀ value : String,
      (PrintPanicOrSuccess "db" (some (GoError.other "refused")) 0 false openWorld).1 ≠
        Outcome.panicked value) ∧
    (PrintPanicOrSuccessIfNotOk false "db" 0 false openWorld).1 = Outcome.returned ∧
    (panicIfNotOk false "db" openWorld).1 = Outcome.returned ∧
    (panicIfNotOk false "db" openWorld).2.console =
      "2024/01/02 03:04:05 FATAL Panic db: false\n\n" := by
  refine ⟨rfl, rfl, ?_, rfl, rfl, rfl⟩
  intro value h
  cases h

/-- The call `Close` on a handle that is already closed: the state is left as
it is and the error is the `*fs.PathError` of `os.ErrClosed`. -/
theorem Close_closed_handle (w : World) (f : File) (hsome : w.logFile = some f)
    (hclosed : f.closed = true) :
    Close w = (some (GoError.pathError "close" w.fileName GoError.closed), w) := by
  cases f with
  | mk c =>
    cases w
    simp_all [Close, File.Close]

/-- The call `Close` on an open handle closes it, whatever the close answers,
and leaves `logFile` pointing at it. -/
theorem Close_open_handle (w : World) (f : File) (hsome : w.logFile = some f)
    (hopen : f.closed = false) :
    (Close w).2 = { w with logFile := some ⟨true⟩ } := by
  cases f with
  | mk c =>
    cases hcf : w.closeFault <;> simp_all [Close, File.Close]

/-- C13, as stated, fails: after `Init` has opened the sink in a world where
nothing was logged, the first `Close` succeeds and the second returns an
error, the `*fs.PathError` with the text
`close 2024_01_02-03_04_05.log: file already closed`. -/
theorem Close_twice_error :
    freshWorld.openFault = none ∧
    (Init freshWorld).1 = Outcome.returned ∧
    (Init freshWorld).2.logFile = some ⟨false⟩ ∧
    (Close (Init freshWorld).2).1 = none ∧
    (Close (Close (Init freshWorld).2).2).1 =
      some (GoError.pathError "close" "2024_01_02-03_04_05.log" GoError.closed) ∧
    (Close (Close (Init freshWorld).2).2).1 ≠ none := by
  refine ⟨rfl, rfl, rfl, rfl, rfl, by decide⟩

/-- C13, amended: after `Init` has opened the sink, once the first `Close` has
succeeded, a further `Close` is not a no-op that returns nil: it returns an
error. -/
theorem Close_twice (w : World) (hopen : w.openFault = none)
    (hfirst : (Close (Init w).2).1 = none) :
    (Init w).1 = Outcome.returned ∧
    (Close (Init w).2).1 = none ∧
    (Close (Close (Init w).2).2).1 ≠ none := by
  have hinit : Init w = (Outcome.returned, { w with logFile := some ⟨false⟩ }) := by
    unfold Init
    simp [hopen]
  refine ⟨by rw [hinit], hfirst, ?_⟩
  rw [hinit, Close_open_handle _ ⟨false⟩ rfl rfl, Close_closed_handle _ ⟨true⟩ rfl rfl]
  simp

/-- Witness of C13, amended: the sink opened in the fresh world. -/
theorem Close_twice_witness :
    freshWorld.openFault = none ∧
    (Close (Init freshWorld).2).1 = none ∧
    (Close (Close (Init freshWorld).2).2).1 ≠ none :=
  ⟨rfl, (Close_twice freshWorld rfl rfl).2.1, (Close_twice freshWorld rfl rfl).2.2⟩

/-- C14: given a failing signal, `PrintWarningOrSuccess` (`err` not nil),
`PrintWarningOrSuccessIfNotOk` and `warnIfNotOk` (`ok` false) return after the
one emission of `msg + ": " + detail` at level 1, label WARNING; `detail` is
`err.Error()` for the error value and `false` for the flag. No success line is
written: the console grows by this line alone and the file is handed at most
this one message. -/
theorem reporters_warning (msg : String) (err : GoError) (successLevel : Int)
    (isSuccessSilent : Bool) (w : World) :
    levelStr 1 = "WARNING" ∧
    PrintWarningOrSuccess msg (some err) successLevel isSuccessSilent w =
      (Outcome.returned, (Logln (msg ++ ": " ++ err.Error) 1 false w).2) ∧
    PrintWarningOrSuccessIfNotOk false msg successLevel isSuccessSilent w =
      (Outcome.returned, (Logln (msg ++ ": " ++ "false") 1 false w).2) ∧
    warnIfNotOk false msg w =
      (Outcome.returned, (Logln (msg ++ ": " ++ "false") 1 false w).2) ∧
    (∀ detail : String,
      (Logln (msg ++ ": " ++ detail) 1 false w).2.console =
        w.console ++
          (w.now ++ " " ++ "WARNING" ++ " " ++ (msg ++ ": " ++ detail) ++ "\n" ++ "\n") ∧
      (Logln (msg ++ ": " ++ detail) 1 false w).2.writes =
        w.writes ++ (match w.logFile with
          | some _ => [w.now ++ " " ++ "WARNING" ++ " " ++ (msg ++ ": " ++ detail) ++ "\n"]
          | none => [])) := by
  refine ⟨by decide, rfl, rfl, rfl, ?_⟩
  intro detail
  rw [Logln_console, Logln_writes]
  exact ⟨rfl, rfl⟩

/-- C15: called with `ok` true, each of `errorIfNotOk`, `warnIfNotOk`,
`fatalIfNotOk` and `panicIfNotOk` returns to its caller and leaves the world,
console and file included, as it was; `errorIfNotOk(false, "precondition")`
writes the line `Error occurred precondition: false` under the label ERROR. -/
theorem guards_pass_silent (msg : String) (w : World) :
    errorIfNotOk true msg w = (Outcome.returned, w) ∧
    warnIfNotOk true msg w = (Outcome.returned, w) ∧
    fatalIfNotOk true msg w = (Outcome.returned, w) ∧
    panicIfNotOk true msg w = (Outcome.returned, w) ∧
    (errorIfNotOk false "precondition" w).2.console =
      w.console ++
        (w.now ++ " " ++ "ERROR" ++ " " ++ "Error occurred precondition: false" ++ "\n" ++ "\n") ∧
    (errorIfNotOk false "precondition" w).2.writes =
      w.writes ++ (match w.logFile with
        | some _ =>
          [w.now ++ " " ++ "ERROR" ++ " " ++ "Error occurred precondition: false" ++ "\n"]
        | none => []) := by
  refine ⟨rfl, rfl, rfl, rfl, ?_, ?_⟩
  · show (Logln ("Error occurred " ++ "precondition" ++ ": " ++ fmtBool false) 2 false w).2.console
      = _
    rw [Logln_console]
    rfl
  · show (Logln ("Error occurred " ++ "precondition" ++ ": " ++ fmtBool false) 2 false w).2.writes
      = _
    rw [Logln_writes]
    rfl

/-- C16: `ManualLogf` composes the message of `Logln` (timestamp, the label
when there is one, the text) and writes it with no terminator: to the console
unless silent, while `Logln` writes the same message and two newlines there;
to the file when `logFile` is a handle, while `Logln` hands the file the same
message and one newline. With the sink open and the write succeeding, the
file output of `ManualLogf` followed by one newline is the file output of
`Logln`. -/
theorem ManualLogf_unframed (text : String) (level : Int) (isSilent : Bool) (w : World) :
    ∃ m : String,
      m = (if levelStr level = "" then w.now ++ " " ++ text
           else w.now ++ " " ++ levelStr level ++ " " ++ text) ∧
      (ManualLogf text level isSilent w).2.console =
        (if isSilent then w.console else w.console ++ m) ∧
      (Logln text level isSilent w).2.console =
        (if isSilent then w.console else w.console ++ (m ++ "\n" ++ "\n")) ∧
      (∀ f : File, w.logFile = some f →
        (ManualLogf text level isSilent w).2.writes = w.writes ++ [m] ∧
        (Logln text level isSilent w).2.writes = w.writes ++ [m ++ "\n"]) ∧
      (∀ f : File, w.logFile = some f → f.closed = false → w.writeFault = none →
        (ManualLogf text level isSilent w).2.disk = w.disk ++ m ∧
        (Logln text level isSilent w).2.disk = w.disk ++ (m ++ "\n")) := by
  refine ⟨specLogLine w.now (levelStr level) text, rfl, ManualLogf_console _ _ _ _,
    Logln_console _ _ _ _, ?_, ?_⟩
  · intro f hf
    rw [ManualLogf_writes, Logln_writes, hf]
    exact ⟨rfl, rfl⟩
  · intro f hf hc hw
    exact ⟨ManualLogf_open_disk text level isSilent w f hf hc hw,
      Logln_open_disk text level isSilent w f hf hc hw⟩

/-- Witness of C16: the text `up` at level 0, into the open sink. -/
theorem ManualLogf_unframed_witness :
    openWorld.logFile = some ⟨false⟩ ∧ openWorld.writeFault = none ∧
    ∃ m : String,
      (ManualLogf "up" 0 false openWorld).2.console = openWorld.console ++ m ∧
      (ManualLogf "up" 0 false openWorld).2.disk = openWorld.disk ++ m ∧
      (Logln "up" 0 false openWorld).2.disk = openWorld.disk ++ (m ++ "\n") := by
  refine ⟨rfl, rfl, ?_⟩
  obtain ⟨m, _, hc, _, _, hd⟩ := ManualLogf_unframed "up" 0 false openWorld
  exact ⟨m, hc, (hd ⟨false⟩ rfl rfl rfl).1, (hd ⟨false⟩ rfl rfl rfl).2⟩

/-- C17: `Printf` writes the text as given, with no timestamp, label or
terminator: to the console unless silent, and to the file when `logFile` is a
handle; the whole result of the call is the same at every level. -/
theorem Printf_verbatim (text : String) (level : Int) (isSilent : Bool) (w : World) :
    (∀ other : Int, Printf text level isSilent w = Printf text other isSilent w) ∧
    (Printf text level isSilent w).2.console =
      (if isSilent then w.console else w.console ++ text) ∧
    (Printf text level isSilent w).2.writes =
      w.writes ++ (match w.logFile with
        | some _ => [text]
        | none => []) ∧
    (∀ f : File, w.logFile = some f → f.closed = false → w.writeFault = none →
      (Printf text level isSilent w).2.disk = w.disk ++ text) := by
  refine ⟨fun _ => rfl, Printf_console _ _ _ _, Printf_writes _ _ _ _, ?_⟩
  intro f hf hc hw
  exact Printf_open_disk text level isSilent w f hf hc hw

/-- Witness of C17: the text `raw` into the open sink. -/
theorem Printf_verbatim_witness :
    openWorld.logFile = some ⟨false⟩ ∧ openWorld.writeFault = none ∧
    (Printf "raw" 0 false openWorld).2.console = "raw" ∧
    (Printf "raw" 0 false openWorld).2.disk = "raw" ∧
    Printf "raw" 0 false openWorld = Printf "raw" 3 false openWorld :=
  ⟨rfl, rfl, (Printf_verbatim "raw" 0 false openWorld).2.1,
    (Printf_verbatim "raw" 0 false openWorld).2.2.2 ⟨false⟩ rfl rfl rfl,
    (Printf_verbatim "raw" 0 false openWorld).1 3⟩

/-- C18: `Close` while `logFile` is nil returns no error and leaves the world
as it was. -/
theorem Close_nil (w : World) (hnil : w.logFile = none) :
    Close w = (none, w) := by
  unfold Close
  simp [hnil]

/-- Witness of C18: `Close` before `Init`. -/
theorem Close_nil_witness :
    freshWorld.logFile = none ∧ Close freshWorld = (none, freshWorld) :=
  ⟨rfl, Close_nil freshWorld rfl⟩

/-- C19, as stated, fails: given a non-nil error whose method `Error` panics,
a nil pointer held in the interface, `PrintErrorOrSuccess` and
`PrintWarningOrSuccess` panic with that value, and nothing was written. -/
theorem reporters_panic_in_Error :
    (PrintErrorOrSuccess "deploy" (some (ErrorValue.panicking nilDereference)) 0
        false openWorld).1 = Outcome.panicked nilDereference ∧
    (PrintErrorOrSuccess "deploy" (some (ErrorValue.panicking nilDereference)) 0
        false openWorld).1 ≠ Outcome.returned ∧
    (PrintErrorOrSuccess "deploy" (some (ErrorValue.panicking nilDereference)) 0
        false openWorld).2 = openWorld ∧
    (PrintWarningOrSuccess "deploy" (some (ErrorValue.panicking nilDereference)) 0
        false openWorld).1 = Outcome.panicked nilDereference ∧
    (PrintWarningOrSuccess "deploy" (some (ErrorValue.panicking nilDereference)) 0
        false openWorld).1 ≠ Outcome.returned := by
  refine ⟨rfl, by decide, rfl, rfl, by decide⟩

/-- C19, amended: on every input whose error value is nil or has a method
`Error` that returns, the warning and the error reporters return to their
caller: whatever the signal, the message, the success level, the silence flag
and the state of the sink (nil, open, closed, or failing its writes), none of
them exits the process or panics. -/
theorem observational_reporters_return (ok : Bool) (err : Option ErrorValue) (msg : String)
    (successLevel : Int) (isSuccessSilent : Bool) (w : World)
    (herr : err = none ∨ ∃ detail : String, callError err = Except.ok detail) :
    (PrintWarningOrSuccess msg err successLevel isSuccessSilent w).1 = Outcome.returned ∧
    (PrintWarningOrSuccessIfNotOk ok msg successLevel isSuccessSilent w).1 = Outcome.returned ∧
    (warnIfNotOk ok msg w).1 = Outcome.returned ∧
    (PrintErrorOrSuccess msg err successLevel isSuccessSilent w).1 = Outcome.returned ∧
    (PrintErrorOrSuccessIfNotOk ok msg successLevel isSuccessSilent w).1 = Outcome.returned ∧
    (errorIfNotOk ok msg w).1 = Outcome.returned := by
  have hflag : (PrintWarningOrSuccessIfNotOk ok msg successLevel isSuccessSilent w).1 =
        Outcome.returned ∧
      (warnIfNotOk ok msg w).1 = Outcome.returned ∧
      (PrintErrorOrSuccessIfNotOk ok msg successLevel isSuccessSilent w).1 = Outcome.returned ∧
      (errorIfNotOk ok msg w).1 = Outcome.returned := by
    cases ok <;> exact ⟨rfl, rfl, rfl, rfl⟩
  obtain ⟨h1, h2, h3, h4⟩ := hflag
  match err, herr with
  | none, _ => exact ⟨rfl, h1, h2, rfl, h3, h4⟩
  | some (ErrorValue.returning e), _ => exact ⟨rfl, h1, h2, rfl, h3, h4⟩
  | some (ErrorValue.panicking v), Or.inl h => cases h
  | some (ErrorValue.panicking v), Or.inr ⟨detail, h⟩ => cases h

/-- Witness of C19, amended: the error `refused` reported while the disk is
full. -/
theorem observational_reporters_return_witness :
    (callError (some (ErrorValue.returning (GoError.other "refused"))) = Except.ok "refused") ∧
    (PrintErrorOrSuccess "deploy" (some (GoError.other "refused")) 0 false fullDiskWorld).1 =
      Outcome.returned ∧
    (PrintWarningOrSuccess "deploy" (some (GoError.other "refused")) 0 false fullDiskWorld).1 =
      Outcome.returned :=
  ⟨rfl,
   (observational_reporters_return false (some (GoError.other "refused")) "deploy" 0 false
      fullDiskWorld (Or.inr ⟨"refused", rfl⟩)).2.2.2.1,
   (observational_reporters_return false (some (GoError.other "refused")) "deploy" 0 false
      fullDiskWorld (Or.inr ⟨"refused", rfl⟩)).1⟩

/-- C20: given a failing signal, the result of each of the eight
`...OrSuccess` reporters, console and file included, is the same for any two
choices of `successLevel` and `isSuccessSilent`; and with `isSuccessSilent`
true the failure line is on the console all the same. -/
theorem failure_line_independent (msg : String) (err : GoError) (level other : Int)
    (silent silent2 : Bool) (w : World) :
    (PrintWarningOrSuccessIfNotOk false msg level silent w =
        PrintWarningOrSuccessIfNotOk false msg other silent2 w ∧
      PrintErrorOrSuccessIfNotOk false msg level silent w =
        PrintErrorOrSuccessIfNotOk false msg other silent2 w ∧
      PrintFatalOrSuccessIfNotOk false msg level silent w =
        PrintFatalOrSuccessIfNotOk false msg other silent2 w ∧
      PrintPanicOrSuccessIfNotOk false msg level silent w =
        PrintPanicOrSuccessIfNotOk false msg other silent2 w ∧
      PrintWarningOrSuccess msg (some err) level silent w =
        PrintWarningOrSuccess msg (some err) other silent2 w ∧
      PrintErrorOrSuccess msg (some err) level silent w =
        PrintErrorOrSuccess msg (some err) other silent2 w ∧
      PrintPanicOrSuccess msg (some err) level silent w =
        PrintPanicOrSuccess msg (some err) other silent2 w ∧
      PrintFatalOrSuccess msg (some err) level silent w =
        PrintFatalOrSuccess msg (some err) other silent2 w) ∧
    ((PrintWarningOrSuccessIfNotOk false msg level true w).2.console =
        w.console ++ (w.now ++ " " ++ "WARNING" ++ " " ++ (msg ++ ": " ++ "false")
          ++ "\n" ++ "\n") ∧
      (PrintErrorOrSuccessIfNotOk false msg level true w).2.console =
        w.console ++ (w.now ++ " " ++ "ERROR" ++ " " ++
          ("Error occurred " ++ msg ++ ": " ++ "false") ++ "\n" ++ "\n") ∧
      (PrintFatalOrSuccessIfNotOk false msg level true w).2.console =
        w.console ++ (w.now ++ " " ++ "FATAL" ++ " " ++
          ("Fatal error occurred " ++ msg ++ ": " ++ "false") ++ "\n" ++ "\n") ∧
      (PrintPanicOrSuccessIfNotOk false msg level true w).2.console =
        w.console ++ (w.now ++ " " ++ "FATAL" ++ " " ++ ("Panic " ++ msg ++ ": " ++ "false")
          ++ "\n" ++ "\n") ∧
      (PrintWarningOrSuccess msg (some err) level true w).2.console =
        w.console ++ (w.now ++ " " ++ "WARNING" ++ " " ++ (msg ++ ": " ++ err.Error)
          ++ "\n" ++ "\n") ∧
      (PrintErrorOrSuccess msg (some err) level true w).2.console =
        w.console ++ (w.now ++ " " ++ "ERROR" ++ " " ++
          ("Error occurred " ++ msg ++ ": " ++ err.Error) ++ "\n" ++ "\n") ∧
      (PrintPanicOrSuccess msg (some err) level true w).2.console =
        w.console ++ (w.now ++ " " ++ "FATAL" ++ " " ++ ("Panic " ++ msg ++ ": " ++ err.Error)
          ++ "\n" ++ "\n") ∧
      (PrintFatalOrSuccess msg (some err) level true w).2.console =
        w.console ++ (w.now ++ " " ++ "FATAL" ++ " " ++
          ("Fatal error encountered " ++ msg ++ ": " ++ err.Error) ++ "\n" ++ "\n")) := by
  refine ⟨⟨rfl, rfl, rfl, rfl, rfl, rfl, rfl, rfl⟩, ?_, ?_, ?_, ?_, ?_, ?_, ?_, ?_⟩
  · show (Logln (msg ++ ": " ++ fmtBool false) 1 false w).2.console = _
    rw [Logln_console]
    rfl
  · show (Logln ("Error occurred " ++ msg ++ ": " ++ fmtBool false) 2 false w).2.console = _
    rw [Logln_console]
    rfl
  · show (Logln ("Fatal error occurred " ++ msg ++ ": " ++ fmtBool false) 3 false w).2.console = _
    rw [Logln_console]
    rfl
  · show (Logln ("Panic " ++ msg ++ ": " ++ fmtBool false) 3 false w).2.console = _
    rw [Logln_console]
    rfl
  · show (Logln (msg ++ ": " ++ err.Error) 1 false w).2.console = _
    rw [Logln_console]
    rfl
  · show (Logln ("Error occurred " ++ msg ++ ": " ++ err.Error) 2 false w).2.console = _
    rw [Logln_console]
    rfl
  · show (Logln ("Panic " ++ msg ++ ": " ++ err.Error) 3 false w).2.console = _
    rw [Logln_console]
    rfl
  · show (Logln ("Fatal error encountered " ++ msg ++ ": " ++ err.Error) 3 false w).2.console = _
    rw [Logln_console]
    rfl

end logln
